import Mathlib

/-!
A shallow embedding of the VeriScript writing-assessment pipeline:
the data model (`types.ts`), the three analysis stages
(`services/geminiService.ts`), the profile/rubric store
(`services/storageService.ts`) and the submission orchestrator
(`components/OnboardingFlow.tsx`).  JavaScript numbers are modelled as
rationals, JS `Math.round` as `fun q => ⌊q + 1/2⌋` (half rounds toward
+∞), and each external Gemini call as an explicit outcome parameter: a
stage whose result does not depend on that parameter made no call.
-/

namespace VeriScript

/-- `Track` enum from `types.ts`. -/
inductive Track where
  | ACADEMIC
  | TECHNICAL
  | BOTH
deriving DecidableEq, Repr

/-- `ApplicationStatus` enum from `types.ts`. -/
inductive ApplicationStatus where
  | PROFILE_SUBMITTED
  | ASSESSMENT_PENDING
  | REVIEWING
  | ONBOARDED
  | REJECTED
deriving DecidableEq, Repr

/-- The two `WritingSample.type` string constants from `types.ts`. -/
inductive SampleType where
  | UPLOADED_SAMPLE
  | ASSESSMENT_TASK
deriving DecidableEq, Repr

/-- `WritingSample` from `types.ts`. -/
structure WritingSample where
  id : String
  title : String
  content : String
  type : SampleType
  dateSubmitted : String
deriving DecidableEq, Repr

/-- `StyleMetrics` from `types.ts` (all numeric fields are JS numbers). -/
structure StyleMetrics where
  vocabularyRichness : ℚ
  sentenceComplexity : ℚ
  passiveVoiceUsage : ℚ
  tone : String
  detectedAiProbability : ℚ
  consistencyScore : ℚ
  keyTraits : List String
deriving DecidableEq, Repr

/-- `RubricCriterion` from `types.ts`. -/
structure RubricCriterion where
  id : String
  category : String
  description : String
  maxPoints : ℚ
deriving DecidableEq, Repr

/-- `RubricScore` from `types.ts`. -/
structure RubricScore where
  criterionId : String
  score : ℚ
  comments : String
deriving DecidableEq, Repr

/-- One `{title, uri}` citation of `PlagiarismResult.sources`. -/
structure PlagiarismSource where
  title : String
  uri : String
deriving DecidableEq, Repr

/-- `PlagiarismResult` from `types.ts`. -/
structure PlagiarismResult where
  score : ℚ
  sources : List PlagiarismSource
  analysis : String
deriving DecidableEq, Repr

/-- `AiAnalysisResponse` from `types.ts`: the structured reply of the
style-and-rubric analysis stage. -/
structure AiAnalysisResponse where
  metrics : StyleMetrics
  rubricScores : List RubricScore
  feedback : String
  summary : String
deriving DecidableEq, Repr

/-- The `{matchScore, reason}` reply of `compareAuthorship`. -/
structure AuthorshipResult where
  matchScore : ℚ
  reason : String
deriving DecidableEq, Repr

/-- `AssessmentResult` from `types.ts`.  `overallScore` is produced by
`Math.round`, hence an integer. -/
structure AssessmentResult where
  overallScore : ℤ
  rubricScores : List RubricScore
  feedback : String
  authorshipMatchScore : ℚ
  metrics : StyleMetrics
  plagiarism : Option PlagiarismResult
  timeTakenSeconds : Option ℚ
  pasteCount : Option Nat
deriving DecidableEq, Repr

/-- The `meta` telemetry record inside `WriterProfile.assessment`. -/
structure AssessmentMeta where
  startTime : ℚ
  endTime : ℚ
  pasteCount : Nat
deriving DecidableEq, Repr

/-- The `assessment` record inside `WriterProfile`. -/
structure Assessment where
  taskPrompt : String
  submission : String
  result : Option AssessmentResult
  meta : AssessmentMeta
deriving DecidableEq, Repr

/-- `WriterProfile` from `types.ts`. -/
structure WriterProfile where
  id : String
  fullName : String
  email : String
  track : Option Track
  experienceYears : ℚ
  bio : String
  samples : List WritingSample
  assessment : Option Assessment
  status : ApplicationStatus
  appliedDate : String
deriving DecidableEq, Repr

/-!
## External-service outcomes

Each Gemini call in `geminiService.ts` is modelled by a parameter
describing what the call did: it threw, returned no text, returned
unparsable text, or returned a parsed value.  A stage invokes its
service exactly when its result depends on this parameter.
-/

/-- Outcome of one `ai.models.generateContent` call followed by the
`response.text` check and `JSON.parse`. -/
inductive ServiceOutcome (α : Type) where
  | failure
  | noContent
  | malformed
  | ok (value : α)
deriving DecidableEq, Repr

/-- What the search-grounded plagiarism call yielded when it did not
throw: the `(title, uri)` pairs extracted from the grounding chunks
(missing metadata is the empty list) and the optional `response.text`. -/
structure SearchServiceResponse where
  sources : List PlagiarismSource
  text : Option String
deriving DecidableEq, Repr

/-!
## `services/geminiService.ts`
-/

/-- The zero-valued `StyleMetrics` of the short-text branch of
`analyzeWritingStyle`. -/
def zeroMetrics : StyleMetrics :=
  { vocabularyRichness := 0
    sentenceComplexity := 0
    passiveVoiceUsage := 0
    tone := "N/A"
    detectedAiProbability := 0
    consistencyScore := 0
    keyTraits := [] }

/-- `analyzeWritingStyle` from `geminiService.ts`.  `!text || text.length < 50`
collapses to `text.length < 50` (the empty string has length 0).  On the
service path the parsed response is returned as-is; a thrown call, an
empty response or unparsable JSON all re-throw (`Except.error`). -/
def analyzeWritingStyle (svc : ServiceOutcome AiAnalysisResponse)
    (text : String) (rubric : List RubricCriterion) :
    Except String AiAnalysisResponse :=
  if text.length < 50 then
    Except.ok
      { metrics := zeroMetrics
        rubricScores := rubric.map fun r =>
          { criterionId := r.id, score := 0, comments := "Insufficient text" }
        feedback := "Text too short to analyze."
        summary := "Insufficient data." }
  else
    match svc with
    | ServiceOutcome.ok resp => Except.ok resp
    | ServiceOutcome.noContent => Except.error "No response from AI"
    | ServiceOutcome.malformed => Except.error "JSON parse error"
    | ServiceOutcome.failure => Except.error "Gemini Analysis Error"

/-- `checkPlagiarism` from `geminiService.ts`.  Any thrown call is caught
and degraded; otherwise the score is the local heuristic
`min(sources.length > 0 ? 50 + sources.length * 10 : 0, 100)`. -/
def checkPlagiarism (svc : Except Unit SearchServiceResponse)
    (text : String) : PlagiarismResult :=
  if text.length < 50 then
    { score := 0, sources := [], analysis := "Text too short to check." }
  else
    match svc with
    | Except.ok resp =>
        let sources := resp.sources
        let analysisText := resp.text.getD "No analysis provided."
        let calculatedScore : ℚ :=
          if 0 < sources.length then 50 + sources.length * 10 else 0
        { score := min calculatedScore 100
          sources := sources
          analysis := analysisText }
    | Except.error _ =>
        { score := 0, sources := [], analysis := "Error during plagiarism check." }

/-- `compareAuthorship` from `geminiService.ts`.  The only degenerate
check is `!samples || samples.length === 0`; with a non-empty baseline
the call is made, and every error (thrown call, missing text, parse
failure) is caught and degraded to `{0, "Analysis failed"}`. -/
def compareAuthorship (svc : ServiceOutcome AuthorshipResult)
    (samples : List WritingSample) (newText : String) : AuthorshipResult :=
  if samples.isEmpty then
    { matchScore := 100, reason := "No baseline to compare against." }
  else
    match svc with
    | ServiceOutcome.ok r => r
    | _ => { matchScore := 0, reason := "Analysis failed" }

/-!
## `services/storageService.ts` (profile store)
-/

/-- `DEFAULT_RUBRIC` from `storageService.ts`. -/
def DEFAULT_RUBRIC : List RubricCriterion :=
  [ { id := "1", category := "Grammar & Mechanics",
      description := "Accuracy of grammar, spelling, and punctuation.", maxPoints := 20 }
  , { id := "2", category := "Clarity & Flow",
      description := "Logical progression of ideas and readability.", maxPoints := 20 }
  , { id := "3", category := "Technical Accuracy/Research",
      description := "Correctness of facts or technical concepts.", maxPoints := 30 }
  , { id := "4", category := "Voice & Tone",
      description := "Appropriateness of tone for the target audience.", maxPoints := 15 }
  , { id := "5", category := "Adherence to Prompt",
      description := "How well the submission addresses the requirements.", maxPoints := 15 } ]

/-- The two localStorage keys, as one record: the applicant list and the
optionally configured rubric. -/
structure Store where
  applicants : List WriterProfile
  rubric : Option (List RubricCriterion)
deriving DecidableEq, Repr

/-- `getApplicants` from `storageService.ts`. -/
def getApplicants (s : Store) : List WriterProfile :=
  s.applicants

/-- The list-level body of `saveApplicant`: `findIndex` on the id, then
in-place assignment or `push`. -/
def saveApplicantList (applicants : List WriterProfile)
    (profile : WriterProfile) : List WriterProfile :=
  match applicants.findIdx? (fun p => p.id == profile.id) with
  | some existingIndex => applicants.set existingIndex profile
  | none => applicants ++ [profile]

/-- `saveApplicant` from `storageService.ts`. -/
def saveApplicant (s : Store) (profile : WriterProfile) : Store :=
  { s with applicants := saveApplicantList (getApplicants s) profile }

/-- `getApplicantById` from `storageService.ts`. -/
def getApplicantById (s : Store) (id : String) : Option WriterProfile :=
  (getApplicants s).find? (fun p => p.id == id)

/-- `getRubric` from `storageService.ts`: the stored rubric, or the
default when none was configured. -/
def getRubric (s : Store) : List RubricCriterion :=
  s.rubric.getD DEFAULT_RUBRIC

/-- `saveRubric` from `storageService.ts`: stores the given rubric
unconditionally (the source performs no validation). -/
def saveRubric (s : Store) (rubric : List RubricCriterion) : Store :=
  { s with rubric := some rubric }

/-!
## `components/OnboardingFlow.tsx` (orchestrator)
-/

/-- JS `Math.round`: nearest integer, halves toward +∞. -/
def mathRound (q : ℚ) : ℤ :=
  ⌊q + 1 / 2⌋

/-- `currentRubric.reduce((acc, r) => acc + r.maxPoints, 0)`. -/
def totalPoints (rubric : List RubricCriterion) : ℚ :=
  rubric.foldl (fun acc r => acc + r.maxPoints) 0

/-- `assessmentAnalysis.rubricScores.reduce((acc, r) => acc + r.score, 0)`. -/
def earnedPoints (rubricScores : List RubricScore) : ℚ :=
  rubricScores.foldl (fun acc r => acc + r.score) 0

/-- The aggregation step of `submitApplication`:
`totalPoints > 0 ? Math.round((earnedPoints / totalPoints) * 100) : 0`. -/
def normalizedScore (rubric : List RubricCriterion)
    (rubricScores : List RubricScore) : ℤ :=
  if 0 < totalPoints rubric then
    mathRound (earnedPoints rubricScores / totalPoints rubric * 100)
  else 0

/-- `getPromptForTrack` from `OnboardingFlow.tsx`. -/
def getPromptForTrack : Option Track → String
  | some Track.TECHNICAL =>
      "Explain the concept of \x27Recursion\x27 to a 10-year-old, then provide a Python example for a technical audience."
  | some Track.ACADEMIC =>
      "Critically analyze the impact of Remote Work on urban planning in post-2020 cities. Cite hypothetical sources."
  | _ =>
      "Discuss the ethical implications of Artificial Intelligence in creative industries."

/-- The alert text of the catch-branch of `submitApplication`. -/
def submissionErrorMessage : String :=
  "There was an error processing your application. Please check your connection and try again."

/-- `submitApplication` from `OnboardingFlow.tsx`, as a function of the
store, the form state, the assessment text, the three service outcomes
and the frozen telemetry.  It returns the store after the attempt and
the surfaced error, if any.  Inside the `try` block only
`analyzeWritingStyle` can throw (`checkPlagiarism` and
`compareAuthorship` catch their own errors), so the catch-branch fires
exactly on its `Except.error`. -/
def submitApplication (store : Store) (formData : WriterProfile)
    (assessmentText : String)
    (styleSvc : ServiceOutcome AiAnalysisResponse)
    (plagSvc : Except Unit SearchServiceResponse)
    (authSvc : ServiceOutcome AuthorshipResult)
    (startTime now : ℚ) (pasteCount : Nat) : Store × Option String :=
  if formData.fullName = "" ∨ formData.email = "" ∨ formData.track = none then
    (store, none)
  else
    let currentRubric := getRubric store
    match analyzeWritingStyle styleSvc assessmentText currentRubric with
    | Except.error _ => (store, some submissionErrorMessage)
    | Except.ok assessmentAnalysis =>
        let plagiarismResult := checkPlagiarism plagSvc assessmentText
        let authorshipCheck := compareAuthorship authSvc formData.samples assessmentText
        let newProfile : WriterProfile :=
          { formData with
            status := ApplicationStatus.REVIEWING
            assessment := some
              { taskPrompt := getPromptForTrack formData.track
                submission := assessmentText
                result := some
                  { overallScore := normalizedScore currentRubric assessmentAnalysis.rubricScores
                    rubricScores := assessmentAnalysis.rubricScores
                    feedback := assessmentAnalysis.feedback
                    authorshipMatchScore := authorshipCheck.matchScore
                    metrics := assessmentAnalysis.metrics
                    plagiarism := some plagiarismResult
                    timeTakenSeconds := some ((now - startTime) / 1000)
                    pasteCount := some pasteCount }
                meta :=
                  { startTime := startTime
                    endTime := now
                    pasteCount := pasteCount } } }
        (saveApplicant store newProfile, none)

/-!
## Concrete inputs used by witnesses and counterexamples
-/

/-- A submission text of at least 50 characters. -/
def longText : String :=
  "This is a sufficiently long passage of sample text for the analysis stages."

/-- A submission text shorter than 50 characters. -/
def shortText : String :=
  "Too short."

/-- A baseline writing sample. -/
def demoSample : WritingSample :=
  { id := "s1", title := "Sample One"
    content := "Some earlier writing by the applicant."
    type := SampleType.UPLOADED_SAMPLE, dateSubmitted := "2024-01-01" }

/-- Rubric scores earning 18+16+25+10+12 = 81 of the default 100 points. -/
def demoScores : List RubricScore :=
  [ { criterionId := "1", score := 18, comments := "good" }
  , { criterionId := "2", score := 16, comments := "good" }
  , { criterionId := "3", score := 25, comments := "good" }
  , { criterionId := "4", score := 10, comments := "fair" }
  , { criterionId := "5", score := 12, comments := "fair" } ]

/-- A one-criterion rubric. -/
def crit1 : RubricCriterion :=
  { id := "1", category := "Grammar", description := "Grammar quality.", maxPoints := 20 }

/-- A parsed analysis response whose `rubricScores` covers no criterion. -/
def badResp : AiAnalysisResponse :=
  { metrics := zeroMetrics, rubricScores := [], feedback := "Looks fine.", summary := "Summary." }

/-- A search-service response citing exactly one source. -/
def demoSearchResp : SearchServiceResponse :=
  { sources := [{ title := "A Page", uri := "https://example.com/a" }]
    text := some "Found one close match." }

/-- A rubric with duplicate ids and a non-positive maxPoints. -/
def malformedRubric : List RubricCriterion :=
  [ { id := "dup", category := "A", description := "first", maxPoints := -5 }
  , { id := "dup", category := "B", description := "second", maxPoints := 10 } ]

/-- The store holding no applicants and no configured rubric. -/
def emptyStore : Store :=
  { applicants := [], rubric := none }

/-- A complete form state: non-empty name and email, a selected track,
one uploaded sample. -/
def demoProfile : WriterProfile :=
  { id := "w1", fullName := "Jane Doe", email := "jane@example.com"
    track := some Track.TECHNICAL, experienceYears := 3, bio := "Writer."
    samples := [demoSample], assessment := none
    status := ApplicationStatus.PROFILE_SUBMITTED, appliedDate := "2024-01-01" }

/-!
## Helper lemmas
-/

/-- Pulling the accumulator out of the running-sum `reduce`. -/
lemma foldl_add_shift {α : Type} (f : α → ℚ) (l : List α) :
    ∀ c : ℚ, l.foldl (fun acc r => acc + f r) c
      = c + l.foldl (fun acc r => acc + f r) 0 := by
  induction l with
  | nil => intro c; simp
  | cons h t ih =>
      intro c
      simp only [List.foldl_cons]
      rw [ih (c + f h), ih (0 + f h)]
      ring

lemma earnedPoints_cons (s : RubricScore) (l : List RubricScore) :
    earnedPoints (s :: l) = s.score + earnedPoints l := by
  simp only [earnedPoints, List.foldl_cons]
  rw [foldl_add_shift (fun r => r.score) l]
  ring_nf

lemma totalPoints_cons (c : RubricCriterion) (l : List RubricCriterion) :
    totalPoints (c :: l) = c.maxPoints + totalPoints l := by
  simp only [totalPoints, List.foldl_cons]
  rw [foldl_add_shift (fun r => r.maxPoints) l]
  ring_nf

/-- Valid rubric scores (each within `[0, maxPoints]` of its criterion)
earn between 0 and the rubric total, and the total is non-negative. -/
lemma rubric_bounds {scores : List RubricScore} {rubric : List RubricCriterion}
    (h : List.Forall₂ (fun s c => 0 ≤ s.score ∧ s.score ≤ c.maxPoints) scores rubric) :
    0 ≤ earnedPoints scores ∧ earnedPoints scores ≤ totalPoints rubric ∧
      0 ≤ totalPoints rubric := by
  induction h with
  | nil =>
      refine ⟨le_refl 0, le_refl 0, le_refl 0⟩
  | cons hrel _ ih =>
      obtain ⟨h1, h2⟩ := hrel
      obtain ⟨ih1, ih2, ih3⟩ := ih
      rw [earnedPoints_cons, totalPoints_cons]
      refine ⟨by linarith, by linarith, by linarith⟩

/-!
## Claims
-/

/-- Claim C1: for every rubric and every list of valid rubric scores
(each score within `[0, maxPoints]` of its criterion, per the
`RubricScore` data-model invariant), the aggregation step computes
`overallScore = round(100·E/T)` with half rounding up when `T > 0`,
computes `0` when `T = 0`, and the result always lies in `[0, 100]`. -/
theorem claim_C1_overall_score (rubric : List RubricCriterion)
    (scores : List RubricScore)
    (hvalid : List.Forall₂ (fun s c => 0 ≤ s.score ∧ s.score ≤ c.maxPoints) scores rubric) :
    (0 < totalPoints rubric →
      normalizedScore rubric scores
        = mathRound (100 * earnedPoints scores / totalPoints rubric)) ∧
    (totalPoints rubric = 0 → normalizedScore rubric scores = 0) ∧
    0 ≤ normalizedScore rubric scores ∧ normalizedScore rubric scores ≤ 100 := by
  obtain ⟨hE, hET, hT⟩ := rubric_bounds hvalid
  refine ⟨?_, ?_, ?_, ?_⟩
  · intro hpos
    rw [normalizedScore, if_pos hpos]
    congr 1
    ring
  · intro h0
    rw [normalizedScore, if_neg (by rw [h0]; exact lt_irrefl 0)]
  · rcases eq_or_lt_of_le hT with h0 | hpos
    · rw [normalizedScore, if_neg (by rw [← h0]; exact lt_irrefl 0)]
    · rw [normalizedScore, if_pos hpos, mathRound]
      have hdiv : 0 ≤ earnedPoints scores / totalPoints rubric :=
        div_nonneg hE hpos.le
      rw [Int.le_floor]
      push_cast
      nlinarith
  · rcases eq_or_lt_of_le hT with h0 | hpos
    · rw [normalizedScore, if_neg (by rw [← h0]; exact lt_irrefl 0)]
      norm_num
    · rw [normalizedScore, if_pos hpos, mathRound]
      have hdiv : earnedPoints scores / totalPoints rubric ≤ 1 :=
        (div_le_one hpos).mpr hET
      have : (⌊earnedPoints scores / totalPoints rubric * 100 + 1 / 2⌋ : ℤ) < 101 := by
        rw [Int.floor_lt]
        push_cast
        nlinarith
      omega

/-- Witness for C1 at the default five-criterion/100-point rubric and
scores earning 81 points. -/
theorem claim_C1_overall_score_witness :
    0 ≤ normalizedScore DEFAULT_RUBRIC demoScores ∧
    normalizedScore DEFAULT_RUBRIC demoScores ≤ 100 := by
  have h := claim_C1_overall_score DEFAULT_RUBRIC demoScores (by decide)
  exact ⟨h.2.2.1, h.2.2.2⟩

/-- The service path of `checkPlagiarism`, written out. -/
lemma checkPlagiarism_ok (text : String) (resp : SearchServiceResponse)
    (h : ¬ text.length < 50) :
    checkPlagiarism (Except.ok resp) text
      = { score := min (if 0 < resp.sources.length
            then 50 + (resp.sources.length : ℚ) * 10 else 0) 100
          sources := resp.sources
          analysis := resp.text.getD "No analysis provided." } := by
  simp [checkPlagiarism, h]

/-- Claim C2: whenever a plagiarism run reaches score derivation
(text at least 50 characters, service call returned), the score is 0
iff the extracted source list is empty, otherwise equals
`min(100, 50 + 10·n)`; 1 source gives 60, 3 give 80, 6 or more give
100, and the score is monotone in the number of sources. -/
theorem claim_C2_plagiarism_score (text : String) (resp : SearchServiceResponse)
    (hlen : 50 ≤ text.length) :
    ((checkPlagiarism (Except.ok resp) text).score = 0 ↔ resp.sources = []) ∧
    (resp.sources ≠ [] →
      (checkPlagiarism (Except.ok resp) text).score
        = min 100 (50 + 10 * (resp.sources.length : ℚ))) ∧
    (resp.sources.length = 1 → (checkPlagiarism (Except.ok resp) text).score = 60) ∧
    (resp.sources.length = 3 → (checkPlagiarism (Except.ok resp) text).score = 80) ∧
    (6 ≤ resp.sources.length → (checkPlagiarism (Except.ok resp) text).score = 100) ∧
    (∀ resp₂ : SearchServiceResponse,
      resp.sources.length ≤ resp₂.sources.length →
        (checkPlagiarism (Except.ok resp) text).score
          ≤ (checkPlagiarism (Except.ok resp₂) text).score) := by
  have hnot : ¬ text.length < 50 := by omega
  have hcast : ∀ n : Nat, 0 < n → (0 : ℚ) < 50 + (n : ℚ) * 10 := by
    intro n hn
    have : (0 : ℚ) ≤ (n : ℚ) := Nat.cast_nonneg n
    nlinarith
  refine ⟨?_, ?_, ?_, ?_, ?_, ?_⟩
  · rw [checkPlagiarism_ok text resp hnot]
    cases hs : resp.sources with
    | nil => simp [hs]
    | cons a t =>
        simp only [hs, List.length_cons]
        constructor
        · intro hzero
          exfalso
          have hpos : (0 : ℚ) < min (if 0 < t.length + 1
              then 50 + ((t.length + 1 : Nat) : ℚ) * 10 else 0) 100 := by
            rw [if_pos (Nat.succ_pos t.length)]
            exact lt_min (hcast _ (Nat.succ_pos t.length)) (by norm_num)
          rw [hzero] at hpos
          exact lt_irrefl 0 hpos
        · intro hcontra
          exact absurd hcontra (List.cons_ne_nil a t)
  · intro hne
    rw [checkPlagiarism_ok text resp hnot]
    have hpos : 0 < resp.sources.length := List.length_pos.mpr hne
    rw [if_pos hpos, min_comm]
    ring_nf
  · intro h1
    rw [checkPlagiarism_ok text resp hnot, h1]
    norm_num
  · intro h3
    rw [checkPlagiarism_ok text resp hnot, h3]
    norm_num
  · intro h6
    rw [checkPlagiarism_ok text resp hnot]
    rw [if_pos (by omega)]
    have : (100 : ℚ) ≤ 50 + (resp.sources.length : ℚ) * 10 := by
      have : (6 : ℚ) ≤ (resp.sources.length : ℚ) := by exact_mod_cast h6
      nlinarith
    rw [min_eq_right this]
  · intro resp₂ hle
    rw [checkPlagiarism_ok text resp hnot, checkPlagiarism_ok text resp₂ hnot]
    by_cases hz : 0 < resp.sources.length
    · have hz2 : 0 < resp₂.sources.length := lt_of_lt_of_le hz hle
      rw [if_pos hz, if_pos hz2]
      refine min_le_min ?_ (le_refl 100)
      have : ((resp.sources.length : ℚ)) ≤ ((resp₂.sources.length : ℚ)) := by
        exact_mod_cast hle
      linarith
    · rw [if_neg hz]
      have h0 : min (0 : ℚ) 100 = 0 := by norm_num
      rw [h0]
      by_cases hz2 : 0 < resp₂.sources.length
      · rw [if_pos hz2]
        exact le_min (hcast _ hz2).le (by norm_num)
      · rw [if_neg hz2]
        norm_num

/-- Witness for C2 at a 76-character text and a single cited source:
the derived score is 60. -/
theorem claim_C2_plagiarism_score_witness :
    (checkPlagiarism (Except.ok demoSearchResp) longText).score = 60 := by
  have h := claim_C2_plagiarism_score longText demoSearchResp (by decide)
  exact h.2.2.1 rfl

/-- Claim C3: if the Style & Rubric Analysis stage fails (thrown call,
empty response or unparsable output, i.e. `analyzeWritingStyle` returns
an error), the whole submission attempt aborts with the single surfaced
error message, and the store — hence every persisted profile and every
persisted assessment — is left unchanged. -/
theorem claim_C3_style_failure_aborts (store : Store) (formData : WriterProfile)
    (text : String) (styleSvc : ServiceOutcome AiAnalysisResponse)
    (plagSvc : Except Unit SearchServiceResponse)
    (authSvc : ServiceOutcome AuthorshipResult)
    (t0 t1 : ℚ) (pc : Nat) (e : String)
    (hname : ¬ formData.fullName = "") (hemail : ¬ formData.email = "")
    (htrack : ¬ formData.track = none)
    (hfail : analyzeWritingStyle styleSvc text (getRubric store) = Except.error e) :
    submitApplication store formData text styleSvc plagSvc authSvc t0 t1 pc
      = (store, some submissionErrorMessage) := by
  rw [submitApplication, if_neg (by tauto)]
  simp only [hfail]

/-- Witness for C3: a thrown style call on a long text aborts the
attempt against the empty store. -/
theorem claim_C3_style_failure_aborts_witness :
    submitApplication emptyStore demoProfile longText ServiceOutcome.failure
        (Except.error ()) ServiceOutcome.failure 0 60 0
      = (emptyStore, some submissionErrorMessage) :=
  claim_C3_style_failure_aborts emptyStore demoProfile longText
    ServiceOutcome.failure (Except.error ()) ServiceOutcome.failure 0 60 0
    "Gemini Analysis Error" (by decide) (by decide) (by decide) rfl

/-- Claim C4, counterexample: for a 10-character text and a non-empty
baseline, `compareAuthorship` has no short-text branch — its output is
whatever the service call yields (so the service is invoked), not a
fixed degenerate output. -/
theorem claim_C4_counterexample :
    shortText.length < 50 ∧
    compareAuthorship (ServiceOutcome.ok { matchScore := 42, reason := "consistent style" })
        [demoSample] shortText
      = { matchScore := 42, reason := "consistent style" } ∧
    compareAuthorship ServiceOutcome.failure [demoSample] shortText
      = { matchScore := 0, reason := "Analysis failed" } ∧
    compareAuthorship (ServiceOutcome.ok { matchScore := 42, reason := "consistent style" })
        [demoSample] shortText
      ≠ compareAuthorship ServiceOutcome.failure [demoSample] shortText :=
  ⟨by decide, rfl, rfl, by decide⟩

/-- Claim C4 as amended: for every text shorter than 50 characters the
Style and Plagiarism stages never consult their service outcome and
return their fixed degenerate outputs; the Authorship stage is excluded
(its only degenerate case is an empty baseline, see the
counterexample). -/
theorem claim_C4_short_text_degenerate (text : String)
    (rubric : List RubricCriterion)
    (styleSvc : ServiceOutcome AiAnalysisResponse)
    (plagSvc : Except Unit SearchServiceResponse)
    (hshort : text.length < 50) :
    analyzeWritingStyle styleSvc text rubric = Except.ok
      { metrics := zeroMetrics
        rubricScores := rubric.map fun r =>
          { criterionId := r.id, score := 0, comments := "Insufficient text" }
        feedback := "Text too short to analyze."
        summary := "Insufficient data." } ∧
    checkPlagiarism plagSvc text
      = { score := 0, sources := [], analysis := "Text too short to check." } := by
  constructor
  · unfold analyzeWritingStyle
    rw [if_pos hshort]
  · unfold checkPlagiarism
    rw [if_pos hshort]

/-- Witness for C4 as amended, on the 10-character text, a thrown style
call and a thrown plagiarism call. -/
theorem claim_C4_short_text_degenerate_witness :
    analyzeWritingStyle ServiceOutcome.failure shortText DEFAULT_RUBRIC = Except.ok
      { metrics := zeroMetrics
        rubricScores := DEFAULT_RUBRIC.map fun r =>
          { criterionId := r.id, score := 0, comments := "Insufficient text" }
        feedback := "Text too short to analyze."
        summary := "Insufficient data." } ∧
    checkPlagiarism (Except.error ()) shortText
      = { score := 0, sources := [], analysis := "Text too short to check." } :=
  claim_C4_short_text_degenerate shortText DEFAULT_RUBRIC ServiceOutcome.failure
    (Except.error ()) (by decide)

/-- Claim C5: the Plagiarism stage never raises an aborting failure —
its return type is a plain `PlagiarismResult`; when the service call
throws on a text long enough to reach it, the stage returns the fixed
degraded result, and the submission attempt still completes without a
surfaced error. -/
theorem claim_C5_plagiarism_never_aborts (text : String)
    (hlen : 50 ≤ text.length) :
    checkPlagiarism (Except.error ()) text
      = { score := 0, sources := [], analysis := "Error during plagiarism check." } ∧
    (∀ (store : Store) (formData : WriterProfile)
        (styleResp : AiAnalysisResponse) (authSvc : ServiceOutcome AuthorshipResult)
        (t0 t1 : ℚ) (pc : Nat),
      ¬ formData.fullName = "" → ¬ formData.email = "" → ¬ formData.track = none →
      (submitApplication store formData text (ServiceOutcome.ok styleResp)
          (Except.error ()) authSvc t0 t1 pc).2 = none) := by
  have hnot : ¬ text.length < 50 := by omega
  constructor
  · rw [checkPlagiarism, if_neg hnot]
  · intro store formData styleResp authSvc t0 t1 pc hname hemail htrack
    rw [submitApplication, if_neg (by tauto)]
    have ha : analyzeWritingStyle (ServiceOutcome.ok styleResp) text (getRubric store)
        = Except.ok styleResp := by
      unfold analyzeWritingStyle
      rw [if_neg hnot]
    simp only [ha]

/-- Witness for C5 at a 76-character text: the stage degrades and the
attempt with a failing plagiarism call surfaces no error. -/
theorem claim_C5_plagiarism_never_aborts_witness :
    checkPlagiarism (Except.error ()) longText
      = { score := 0, sources := [], analysis := "Error during plagiarism check." } ∧
    (submitApplication emptyStore demoProfile longText (ServiceOutcome.ok badResp)
        (Except.error ()) ServiceOutcome.failure 0 60 0).2 = none := by
  have h := claim_C5_plagiarism_never_aborts longText (by decide)
  exact ⟨h.1, h.2 emptyStore demoProfile badResp ServiceOutcome.failure 0 60 0
    (by decide) (by decide) (by decide)⟩

/-- Claim C6: with a non-empty baseline, any error calling or parsing
the authorship service (any outcome other than a parsed value) is
caught locally and degraded to `{matchScore := 0, reason := "Analysis failed"}` —
the return type is a plain `AuthorshipResult`, so the stage never
aborts. -/
theorem claim_C6_authorship_degrades (samples : List WritingSample)
    (text : String) (svc : ServiceOutcome AuthorshipResult)
    (hne : samples ≠ []) (hfail : ∀ r, svc ≠ ServiceOutcome.ok r) :
    compareAuthorship svc samples text
      = { matchScore := 0, reason := "Analysis failed" } := by
  have hemp : samples.isEmpty = false := by
    cases samples with
    | nil => exact absurd rfl hne
    | cons a t => rfl
  cases svc with
  | ok r => exact absurd rfl (hfail r)
  | failure => simp [compareAuthorship, hemp]
  | noContent => simp [compareAuthorship, hemp]
  | malformed => simp [compareAuthorship, hemp]

/-- Witness for C6: a thrown authorship call against one baseline
sample degrades. -/
theorem claim_C6_authorship_degrades_witness :
    compareAuthorship ServiceOutcome.failure [demoSample] longText
      = { matchScore := 0, reason := "Analysis failed" } :=
  claim_C6_authorship_degrades [demoSample] longText ServiceOutcome.failure
    (by decide) (fun r h => ServiceOutcome.noConfusion h)

/-- Claim C7: with an empty baseline list, `compareAuthorship` returns
exactly `{matchScore := 100, reason := "No baseline to compare against."}`
for every target text and every service outcome — so no external call
is made (the result does not depend on the outcome). -/
theorem claim_C7_empty_baseline (text : String)
    (svc : ServiceOutcome AuthorshipResult) :
    compareAuthorship svc [] text
      = { matchScore := 100, reason := "No baseline to compare against." } :=
  rfl

/-- Claim C8, counterexample: on a text long enough to reach the
service, `analyzeWritingStyle` returns the parsed response as-is with
no coverage validation — a response whose `rubricScores` covers no
criterion of the one-criterion rubric is still returned successfully,
not treated as malformed and fatal. -/
theorem claim_C8_counterexample :
    50 ≤ longText.length ∧
    analyzeWritingStyle (ServiceOutcome.ok badResp) longText [crit1]
      = Except.ok badResp ∧
    badResp.rubricScores = [] ∧
    [crit1] ≠ ([] : List RubricCriterion) :=
  ⟨by decide, rfl, rfl, by decide⟩

/-- Claim C8 as amended: the short-text degenerate branch produces
exactly one `RubricScore` per criterion, covering every criterion id
exactly once in rubric order; on the service path the stage returns the
parsed response unvalidated, so a successful return need not cover
every criterion (only a thrown call, an empty response or unparsable
output is fatal). -/
theorem claim_C8_rubric_coverage (rubric : List RubricCriterion)
    (text : String) (svc : ServiceOutcome AiAnalysisResponse) :
    (text.length < 50 →
      ∃ resp, analyzeWritingStyle svc text rubric = Except.ok resp ∧
        resp.rubricScores.map (fun s => s.criterionId)
          = rubric.map (fun c => c.id)) ∧
    (∀ resp, 50 ≤ text.length → svc = ServiceOutcome.ok resp →
      analyzeWritingStyle svc text rubric = Except.ok resp) := by
  constructor
  · intro hshort
    refine ⟨{ metrics := zeroMetrics
              rubricScores := rubric.map fun r =>
                { criterionId := r.id, score := 0, comments := "Insufficient text" }
              feedback := "Text too short to analyze."
              summary := "Insufficient data." }, ?_, ?_⟩
    · unfold analyzeWritingStyle
      rw [if_pos hshort]
    · rw [List.map_map]
      rfl
  · intro resp hlen heq
    subst heq
    unfold analyzeWritingStyle
    rw [if_neg (by omega)]

/-- Witness for C8 as amended: the unvalidated service path at the
criterion-free response, and the covering degenerate branch on a short
text. -/
theorem claim_C8_rubric_coverage_witness :
    analyzeWritingStyle (ServiceOutcome.ok badResp) longText [crit1]
      = Except.ok badResp ∧
    (∃ resp, analyzeWritingStyle ServiceOutcome.failure shortText [crit1]
        = Except.ok resp ∧
      resp.rubricScores.map (fun s => s.criterionId)
        = [crit1].map (fun c => c.id)) :=
  ⟨(claim_C8_rubric_coverage [crit1] longText (ServiceOutcome.ok badResp)).2
      badResp (by decide) rfl,
   (claim_C8_rubric_coverage [crit1] shortText ServiceOutcome.failure).1 (by decide)⟩

/-- Claim C9, counterexample: `saveRubric` performs no validation — a
rubric with duplicate criterion ids and a non-positive `maxPoints` is
stored as-is, and `getRubric` then hands it to the pipeline. -/
theorem claim_C9_counterexample :
    malformedRubric.map (fun c => c.id) = ["dup", "dup"] ∧
    malformedRubric.map (fun c => c.maxPoints) = [-5, 10] ∧
    saveRubric emptyStore malformedRubric
      = { applicants := [], rubric := some malformedRubric } ∧
    getRubric (saveRubric emptyStore malformedRubric) = malformedRubric :=
  ⟨rfl, rfl, rfl, rfl⟩

/-- Claim C9 as amended: the rubric-save operation stores every rubric
unconditionally (malformed ones included) and `getRubric` subsequently
returns it, so no rejection happens at the Profile Store boundary. -/
theorem claim_C9_save_rubric_unvalidated (s : Store)
    (rubric : List RubricCriterion) :
    saveRubric s rubric = { s with rubric := some rubric } ∧
    getRubric (saveRubric s rubric) = rubric :=
  ⟨rfl, rfl⟩

/-- Unfolding `saveApplicantList` over a head element: the head is
replaced when its id matches, otherwise kept with the save recursing
into the tail. -/
lemma saveApplicantList_cons (h : WriterProfile) (t : List WriterProfile)
    (p : WriterProfile) :
    saveApplicantList (h :: t) p
      = if h.id == p.id then p :: t else h :: saveApplicantList t p := by
  simp only [saveApplicantList, List.findIdx?_cons]
  by_cases hb : (h.id == p.id) = true
  · simp [hb]
  · simp only [hb, if_false, List.findIdx?_succ]
    cases hfi : List.findIdx? (fun q => q.id == p.id) t with
    | none => simp [hfi]
    | some i => simp [hfi, hb]

/-- After a save, looking the profile up by its id finds it. -/
lemma find?_saveApplicantList (l : List WriterProfile) (p : WriterProfile) :
    (saveApplicantList l p).find? (fun q => q.id == p.id) = some p := by
  induction l with
  | nil => simp [saveApplicantList]
  | cons h t ih =>
      rw [saveApplicantList_cons]
      by_cases hb : (h.id == p.id) = true
      · simp [hb, List.find?_cons]
      · simp [List.find?_cons, hb, ih]

/-- A save leaves the profiles with a different id untouched, in
order. -/
lemma filter_saveApplicantList (l : List WriterProfile) (p : WriterProfile) :
    (saveApplicantList l p).filter (fun q => !(q.id == p.id))
      = l.filter (fun q => !(q.id == p.id)) := by
  induction l with
  | nil => simp [saveApplicantList]
  | cons h t ih =>
      rw [saveApplicantList_cons]
      by_cases hb : (h.id == p.id) = true
      · simp [List.filter_cons, hb]
      · simp [List.filter_cons, hb, ih]

/-- When no stored profile has the id, the save is an append. -/
lemma saveApplicantList_append (l : List WriterProfile) (p : WriterProfile)
    (hno : ∀ q ∈ l, q.id ≠ p.id) :
    saveApplicantList l p = l ++ [p] := by
  induction l with
  | nil => simp [saveApplicantList]
  | cons h t ih =>
      have hb : (h.id == p.id) = false := by
        simp only [beq_eq_false_iff_ne, ne_eq]
        exact hno h (List.mem_cons_self h t)
      rw [saveApplicantList_cons, hb]
      simp [ih (fun q hq => hno q (List.mem_cons_of_mem h hq))]

/-- Claim C10: after `saveApplicant p`, `getApplicantById p.id` returns
`p`; a stored profile whose id matches is replaced in place
(at the `findIndex` position), otherwise `p` is appended at the end;
every stored profile with a different id is unchanged and keeps its
relative order, and the rubric configuration is untouched. -/
theorem claim_C10_save_applicant (s : Store) (p : WriterProfile) :
    getApplicantById (saveApplicant s p) p.id = some p ∧
    (∀ i, s.applicants.findIdx? (fun q => q.id == p.id) = some i →
      (saveApplicant s p).applicants = s.applicants.set i p) ∧
    ((∀ q ∈ s.applicants, q.id ≠ p.id) →
      (saveApplicant s p).applicants = s.applicants ++ [p]) ∧
    (saveApplicant s p).applicants.filter (fun q => !(q.id == p.id))
      = s.applicants.filter (fun q => !(q.id == p.id)) ∧
    (saveApplicant s p).rubric = s.rubric := by
  refine ⟨?_, ?_, ?_, ?_, rfl⟩
  · exact find?_saveApplicantList s.applicants p
  · intro i hi
    simp only [saveApplicant, getApplicants, saveApplicantList, hi]
  · intro hno
    exact saveApplicantList_append s.applicants p hno
  · exact filter_saveApplicantList s.applicants p

/-- Witness for C10: saving into the empty store makes the profile the
single stored applicant, found by its id. -/
theorem claim_C10_save_applicant_witness :
    getApplicantById (saveApplicant emptyStore demoProfile) demoProfile.id
      = some demoProfile ∧
    (saveApplicant emptyStore demoProfile).applicants = [demoProfile] := by
  have h := claim_C10_save_applicant emptyStore demoProfile
  refine ⟨h.1, ?_⟩
  have := h.2.2.1 (by intro q hq; cases hq)
  simpa using this

end VeriScript
